import Mathlib

/-!
Verification of the transport gateway of `mcp-payloadcms-rs`.

The definitions below are a shallow embedding of `src/cli.rs` and
`src/server.rs`: configuration resolution (`TransportState.from_args`),
argument validation (`CommandArguments.validate`), endpoint reporting
(`TransportState.active_endpoints`), the endpoint accumulation and
runtime-info write performed by `start_server`, and the WebSocket
frame adapter (`WebsocketTransport`'s `poll_next` receive path and
`start_send` send path).

Effectful library boundaries are made explicit parameters:
* `parse` stands for Rust's `str::parse::<SocketAddr>` (`std`);
* the outcome of `JoinSet::join_next` draining is a single
  `Except String Unit` (the first task failure, if any);
* the outcome of `fs::write` in `write_runtime_info` is an
  `Except String Unit` parameter;
* the actual bound addresses reported by `TcpListener::local_addr`
  are `Option SocketAddr` parameters.
-/

namespace Gateway

/-- Rust's `std::net::SocketAddr`, restricted to what the gateway observes:
a host rendered as text and a port.  `render` is Rust's `Display`. -/
structure SocketAddr where
  host : String
  port : Nat
deriving DecidableEq, Repr

def SocketAddr.render (a : SocketAddr) : String :=
  a.host ++ ":" ++ toString a.port

/-- The configuration record `CommandArguments` from `src/cli.rs`
(fields the gateway consumes; `pid_file`, `foreground`, name and
description are irrelevant to the claims and omitted). -/
structure CommandArguments where
  enable_stdio : Bool
  enable_tcp : Bool
  enable_unix : Bool
  enable_http : Bool
  enable_sse : Bool
  enable_ws : Bool
  tcp_addr : String
  http_addr : String
  sse_addr : String
  ws_addr : String
  unix_path : String
  runtime_info_file : String
deriving DecidableEq, Repr

/-- The struct `TransportState` from `src/server.rs` (lines 34-42). -/
structure TransportState where
  stdio : Bool
  tcp : Option SocketAddr
  unix_path : Option String
  http : Option SocketAddr
  sse : Option SocketAddr
  ws : Option SocketAddr
deriving DecidableEq, Repr

/-- One enabled-transport address-parse block of
`TransportState::from_args`: Rust's
`if enabled { Some(addr.parse().map_err(|e| format!("Invalid {VAR}: {e}"))?) } else { None }`. -/
def parseEnabled (parse : String → Except String SocketAddr)
    (enabled : Bool) (var : String) (addr : String) :
    Except String (Option SocketAddr) :=
  if enabled then
    match parse addr with
    | .ok a => .ok (some a)
    | .error e => .error ("Invalid " ++ var ++ ": " ++ e)
  else
    .ok none

/-- The resolver `TransportState::from_args` (`src/server.rs` lines 45-83): parse the
address of each enabled network transport in the order tcp, http, sse,
ws, propagating the first failure via `?`; the unix path is taken
verbatim with `enable_unix.then_some(...)`. -/
def TransportState.from_args (parse : String → Except String SocketAddr)
    (args : CommandArguments) : Except String TransportState :=
  match parseEnabled parse args.enable_tcp "MCP_TCP_ADDR" args.tcp_addr with
  | .error e => .error e
  | .ok tcp =>
    match parseEnabled parse args.enable_http "MCP_HTTP_ADDR" args.http_addr with
    | .error e => .error e
    | .ok http =>
      match parseEnabled parse args.enable_sse "MCP_SSE_ADDR" args.sse_addr with
      | .error e => .error e
      | .ok sse =>
        match parseEnabled parse args.enable_ws "MCP_WS_ADDR" args.ws_addr with
        | .error e => .error e
        | .ok ws =>
          .ok { stdio := args.enable_stdio
                tcp := tcp
                unix_path := if args.enable_unix then some args.unix_path else none
                http := http
                sse := sse
                ws := ws }

/-- The predicate `TransportState::any_enabled` (`src/server.rs` lines 85-92). -/
def TransportState.any_enabled (t : TransportState) : Bool :=
  t.stdio || t.tcp.isSome || t.unix_path.isSome || t.http.isSome
    || t.sse.isSome || t.ws.isSome

/-- The reporter `TransportState::active_endpoints` (`src/server.rs` lines 94-115):
push one descriptor per enabled transport in the source's order
stdio, tcp, unix, http, sse, ws. -/
def TransportState.active_endpoints (t : TransportState) : List String :=
  (if t.stdio then ["stdio"] else []) ++
  (match t.tcp with | some a => ["tcp@" ++ a.render] | none => []) ++
  (match t.unix_path with | some p => ["unix@" ++ p] | none => []) ++
  (match t.http with | some a => ["http+streamable-sse@" ++ a.render] | none => []) ++
  (match t.sse with | some a => ["sse@" ++ a.render] | none => []) ++
  (match t.ws with | some a => ["ws@" ++ a.render] | none => [])

/-- The validator `CommandArguments::validate` (`src/cli.rs` lines 122-159): the
no-transport check first, then per-enabled-transport address parses in
the order tcp, http, sse, ws, then the unix-path emptiness check. -/
def CommandArguments.validate (parse : String → Except String SocketAddr)
    (trimIsEmpty : String → Bool) (args : CommandArguments) :
    Except String Unit :=
  if !args.enable_stdio && !args.enable_tcp && !args.enable_unix
      && !args.enable_http && !args.enable_sse && !args.enable_ws then
    .error "Enable at least one transport (stdio, tcp, unix, http, or sse)"
  else
    match (if args.enable_tcp then parse args.tcp_addr |>.mapError
            (fun e => "Invalid MCP_TCP_ADDR '" ++ args.tcp_addr ++ "': " ++ e) |>.map some
          else .ok none) with
    | .error e => .error e
    | .ok _ =>
      match (if args.enable_http then parse args.http_addr |>.mapError
              (fun e => "Invalid MCP_HTTP_ADDR '" ++ args.http_addr ++ "': " ++ e) |>.map some
            else .ok none) with
      | .error e => .error e
      | .ok _ =>
        match (if args.enable_sse then parse args.sse_addr |>.mapError
                (fun e => "Invalid MCP_SSE_ADDR '" ++ args.sse_addr ++ "': " ++ e) |>.map some
              else .ok none) with
        | .error e => .error e
        | .ok _ =>
          match (if args.enable_ws then parse args.ws_addr |>.mapError
                  (fun e => "Invalid MCP_WS_ADDR '" ++ args.ws_addr ++ "': " ++ e) |>.map some
                else .ok none) with
          | .error e => .error e
          | .ok _ =>
            if args.enable_unix && trimIsEmpty args.unix_path then
              .error "MCP_UNIX_PATH cannot be empty when unix transport is enabled"
            else
              .ok ()

/-- The record `RuntimeInfo` (`src/server.rs` lines 145-149). -/
structure RuntimeInfo where
  pid : Nat
  endpoints : List String
deriving DecidableEq, Repr

/-- The function `endpoints_lock_push` (`src/server.rs` lines 428-430).  Its Rust body
is `let _ = state;` with a comment that it is a placeholder: it discards
the descriptor and leaves the outer endpoint list unchanged. -/
def endpoints_lock_push (endpoints : List String) (_ep : String) :
    List String :=
  endpoints

/-- The endpoint list `start_server` accumulates, in source order:
`endpoints.extend(active_endpoints())` (line 205), the extra
`endpoints.push("stdio")` when spawning the stdio task (line 210), and
the `endpoints_lock_push` calls made inside the tcp (line 232),
streamable-http (line 313) and websocket (line 377) tasks with the
actual bound addresses from `local_addr()` (each a no-op). -/
def start_server_endpoints (t : TransportState)
    (actual_tcp actual_http actual_ws : Option SocketAddr) : List String :=
  let endpoints := t.active_endpoints
  let endpoints := if t.stdio then endpoints ++ ["stdio"] else endpoints
  let endpoints :=
    match t.tcp, actual_tcp with
    | some _, some a => endpoints_lock_push endpoints ("tcp@" ++ a.render)
    | _, _ => endpoints
  let endpoints :=
    match t.http, actual_http with
    | some _, some a => endpoints_lock_push endpoints ("streamable-http@" ++ a.render)
    | _, _ => endpoints
  match t.ws, actual_ws with
  | some _, some a => endpoints_lock_push endpoints ("ws@" ++ a.render)
  | _, _ => endpoints

/-- The supervisor `start_server` (`src/server.rs` lines 185-426), as the sequence of
decisions it makes around the effectful serving phase: resolve the
configuration, reject an empty transport set, accumulate the endpoint
list, drain the join set (`joinRes` is the first failure among the
spawned tasks, or `.ok ()` when every task returned `Ok`; each `res??`
returns that failure immediately), and only then build `RuntimeInfo`
and attempt the best-effort write, whose own result `writeRes` is
discarded by `let _ = write_runtime_info(...)`.  Returns the function's
result together with the `RuntimeInfo` value whose write was attempted
(`none` when control never reached the write). -/
def start_server (parse : String → Except String SocketAddr)
    (args : CommandArguments) (pid : Nat)
    (actual_tcp actual_http actual_ws : Option SocketAddr)
    (joinRes : Except String Unit) (writeRes : Except String Unit) :
    Except String Unit × Option RuntimeInfo :=
  match TransportState.from_args parse args with
  | .error e => (.error e, none)
  | .ok transports =>
    if !transports.any_enabled then
      (.error "No transports enabled; toggle MCP_ENABLE_* env vars or CLI flags",
       none)
    else
      let endpoints :=
        start_server_endpoints transports actual_tcp actual_http actual_ws
      match joinRes with
      | .error e => (.error e, none)
      | .ok _ =>
        let info : RuntimeInfo := { pid := pid, endpoints := endpoints }
        let _ := writeRes
        (.ok (), some info)

/-! ## JSON-RPC envelopes and the WebSocket adapter

The adapter exchanges `rmcp` JSON-RPC messages as JSON text.  A text
frame's payload is modelled as the JSON document it carries (a `Json`
value); `serde_json::to_string` / `from_str` become encoding to and
decoding from that document. -/

/-- A JSON document (`serde_json::Value`). -/
inductive Json where
  | null
  | bool (b : Bool)
  | num (n : Int)
  | str (s : String)
  | arr (elems : List Json)
  | obj (fields : List (String × Json))

/-- A JSON-RPC id: number or string. -/
inductive JsonId where
  | num (n : Int)
  | str (s : String)
deriving DecidableEq, Repr

/-- The JSON-RPC message envelope carried by `rmcp`'s
`RxJsonRpcMessage`/`TxJsonRpcMessage`: request, notification, success
response, or error response. -/
inductive JsonRpcMessage where
  | request (id : JsonId) (method : String) (params : Option Json)
  | notification (method : String) (params : Option Json)
  | response (id : JsonId) (result : Json)
  | errorResponse (id : JsonId) (code : Int) (message : String)

def JsonId.encode : JsonId → Json
  | .num n => Json.num n
  | .str s => Json.str s

def JsonId.decode : Json → Option JsonId
  | Json.num n => some (JsonId.num n)
  | Json.str s => some (JsonId.str s)
  | _ => none

/-- Serialization of an envelope to its JSON document
(`serde_json::to_string` up to printing). -/
def JsonRpcMessage.encode : JsonRpcMessage → Json
  | .request id method params =>
    Json.obj ([("jsonrpc", Json.str "2.0"), ("id", id.encode),
               ("method", Json.str method)] ++
              (match params with
               | some p => [("params", p)]
               | none => []))
  | .notification method params =>
    Json.obj ([("jsonrpc", Json.str "2.0"), ("method", Json.str method)] ++
              (match params with
               | some p => [("params", p)]
               | none => []))
  | .response id result =>
    Json.obj [("jsonrpc", Json.str "2.0"), ("id", id.encode),
              ("result", result)]
  | .errorResponse id code message =>
    Json.obj [("jsonrpc", Json.str "2.0"), ("id", id.encode),
              ("error", Json.obj [("code", Json.num code),
                                  ("message", Json.str message)])]

/-- First-match field lookup in a JSON object. -/
def jlookup : List (String × Json) → String → Option Json
  | [], _ => none
  | (k, v) :: rest, key => if k = key then some v else jlookup rest key

/-- Deserialization of a JSON document into an envelope
(`serde_json::from_str::<RxJsonRpcMessage>` up to parsing): the
document must be an object with `"jsonrpc": "2.0"`; a `method` field
makes it a request (with `id`) or notification (without); otherwise a
`result` or `error` field with an `id` makes it a response. -/
def JsonRpcMessage.decode (j : Json) : Option JsonRpcMessage :=
  match j with
  | Json.obj fields =>
    match jlookup fields "jsonrpc" with
    | some (Json.str v) =>
      if v = "2.0" then
        match jlookup fields "method" with
        | some (Json.str method) =>
          match jlookup fields "id" with
          | some idj =>
            match JsonId.decode idj with
            | some id => some (.request id method (jlookup fields "params"))
            | none => none
          | none => some (.notification method (jlookup fields "params"))
        | some _ => none
        | none =>
          match jlookup fields "id" with
          | some idj =>
            match JsonId.decode idj with
            | some id =>
              match jlookup fields "result" with
              | some result => some (.response id result)
              | none =>
                match jlookup fields "error" with
                | some (Json.obj ef) =>
                  match jlookup ef "code", jlookup ef "message" with
                  | some (Json.num code), some (Json.str message) =>
                    some (.errorResponse id code message)
                  | _, _ => none
                | _ => none
            | none => none
          | none => none
      else none
    | _ => none
  | _ => none

/-- Rust's `tungstenite::Message`: the frame kinds the adapter distinguishes.
A text frame carries a JSON document; payloads of the other kinds are
opaque bytes the adapter never inspects. -/
inductive Message where
  | text (payload : Json)
  | binary (payload : List Nat)
  | ping (payload : List Nat)
  | pong (payload : List Nat)
  | close
  | frame
deriving Inhabited

def Message.isText : Message → Bool
  | .text _ => true
  | _ => false

/-- One item of the underlying frame stream:
`Result<tungstenite::Message, tungstenite::Error>`. -/
inductive WsItem where
  | ok (m : Message)
  | err (e : String)

/-- The receive path `WebsocketTransport::poll_next` (`src/server.rs` lines 451-481),
iterated over a finite frame sequence: a text frame whose JSON decodes
is yielded; a text frame that fails to parse is logged and skipped; any
non-text frame is skipped; a frame-level read error is logged and
skipped; the stream ends when the underlying stream ends.  The output
item type, as in the source, has no error variant. -/
def wsReceiveAll : List WsItem → List JsonRpcMessage
  | [] => []
  | WsItem.ok (Message.text j) :: rest =>
    match JsonRpcMessage.decode j with
    | some msg => msg :: wsReceiveAll rest
    | none => wsReceiveAll rest
  | WsItem.ok _ :: rest => wsReceiveAll rest
  | WsItem.err _ :: rest => wsReceiveAll rest

/-- The send path `WebsocketTransport::start_send` (`src/server.rs` lines 503-517):
serialize the outbound envelope and wrap it as a single text frame. -/
def wsStartSend (item : JsonRpcMessage) : Message :=
  Message.text item.encode

/-! ## Helper lemmas -/

/-- Decoding inverts encoding for every envelope. -/
theorem JsonRpcMessage.decode_encode (m : JsonRpcMessage) :
    JsonRpcMessage.decode m.encode = some m := by
  cases m with
  | request id method params => cases id <;> cases params <;> rfl
  | notification method params => cases params <;> rfl
  | response id result => cases id <;> rfl
  | errorResponse id code message => cases id <;> rfl

/-- A string starting with `tcp@` is never the descriptor `stdio`. -/
theorem tcp_desc_ne_stdio (s : String) : "tcp@" ++ s ≠ "stdio" := by
  intro h
  have h2 := congrArg String.data h
  rw [String.data_append] at h2
  simp at h2

/-- A string starting with `unix@` is never the descriptor `stdio`. -/
theorem unix_desc_ne_stdio (s : String) : "unix@" ++ s ≠ "stdio" := by
  intro h
  have h2 := congrArg String.data h
  rw [String.data_append] at h2
  simp at h2

/-- A string starting with `http+streamable-sse@` is never `stdio`. -/
theorem http_desc_ne_stdio (s : String) :
    "http+streamable-sse@" ++ s ≠ "stdio" := by
  intro h
  have h2 := congrArg String.data h
  rw [String.data_append] at h2
  simp at h2

/-- A string starting with `sse@` is never the descriptor `stdio`. -/
theorem sse_desc_ne_stdio (s : String) : "sse@" ++ s ≠ "stdio" := by
  intro h
  have h2 := congrArg String.data h
  rw [String.data_append] at h2
  simp at h2

/-- A string starting with `ws@` is never the descriptor `stdio`. -/
theorem ws_desc_ne_stdio (s : String) : "ws@" ++ s ≠ "stdio" := by
  intro h
  have h2 := congrArg String.data h
  rw [String.data_append] at h2
  simp at h2

/-- The descriptor `stdio` occurs in `active_endpoints` once when stdio
is enabled and never otherwise: no network descriptor collides with it. -/
theorem count_stdio_active_endpoints (t : TransportState) :
    (t.active_endpoints.count "stdio") = if t.stdio then 1 else 0 := by
  unfold TransportState.active_endpoints
  cases h : t.stdio <;>
    rcases t.tcp with _ | a <;>
    rcases t.unix_path with _ | p <;>
    rcases t.http with _ | b <;>
    rcases t.sse with _ | c <;>
    rcases t.ws with _ | d <;>
      simp [List.count_append, List.count_cons, List.count_nil,
        tcp_desc_ne_stdio, unix_desc_ne_stdio, http_desc_ne_stdio,
        sse_desc_ne_stdio, ws_desc_ne_stdio]

/-- A disabled transport's parse block never consults its address. -/
theorem parseEnabled_disabled (parse : String → Except String SocketAddr)
    (var addr : String) : parseEnabled parse false var addr = .ok none := rfl

/-- An enabled transport's parse block turns a parse failure into the
labelled configuration error. -/
theorem parseEnabled_error (parse : String → Except String SocketAddr)
    (var addr e : String) (h : parse addr = .error e) :
    parseEnabled parse true var addr
      = .error ("Invalid " ++ var ++ ": " ++ e) := by
  simp [parseEnabled, h]

/-- A parse block succeeds when the transport is disabled or its
address parses. -/
theorem parseEnabled_ok (parse : String → Except String SocketAddr)
    (enabled : Bool) (var addr : String) (a : SocketAddr)
    (h : enabled = false ∨ parse addr = .ok a) :
    ∃ o, parseEnabled parse enabled var addr = .ok o := by
  rcases h with h | h
  · exact ⟨none, by simp [parseEnabled, h]⟩
  · cases enabled
    · exact ⟨none, rfl⟩
    · exact ⟨some a, by simp [parseEnabled, h]⟩

/-- First-failure lemma for the tcp field of `from_args`. -/
theorem from_args_tcp_error (parse : String → Except String SocketAddr)
    (args : CommandArguments) (e : String)
    (htcp : args.enable_tcp = true) (hp : parse args.tcp_addr = .error e) :
    TransportState.from_args parse args
      = .error ("Invalid MCP_TCP_ADDR: " ++ e) := by
  unfold TransportState.from_args
  rw [htcp, parseEnabled_error parse _ _ _ hp]
  rfl

/-- First-failure lemma for the http field of `from_args`: an earlier
tcp block that did not fail passes control to the http block. -/
theorem from_args_http_error (parse : String → Except String SocketAddr)
    (args : CommandArguments) (a : SocketAddr) (e : String)
    (htcp : args.enable_tcp = false ∨ parse args.tcp_addr = .ok a)
    (hhttp : args.enable_http = true) (hp : parse args.http_addr = .error e) :
    TransportState.from_args parse args
      = .error ("Invalid MCP_HTTP_ADDR: " ++ e) := by
  obtain ⟨o, ho⟩ := parseEnabled_ok parse args.enable_tcp "MCP_TCP_ADDR" args.tcp_addr a htcp
  unfold TransportState.from_args
  rw [ho, hhttp, parseEnabled_error parse _ _ _ hp]
  rfl

/-- First-failure lemma for the sse field of `from_args`. -/
theorem from_args_sse_error (parse : String → Except String SocketAddr)
    (args : CommandArguments) (a b : SocketAddr) (e : String)
    (htcp : args.enable_tcp = false ∨ parse args.tcp_addr = .ok a)
    (hhttp : args.enable_http = false ∨ parse args.http_addr = .ok b)
    (hsse : args.enable_sse = true) (hp : parse args.sse_addr = .error e) :
    TransportState.from_args parse args
      = .error ("Invalid MCP_SSE_ADDR: " ++ e) := by
  obtain ⟨o1, h1⟩ := parseEnabled_ok parse args.enable_tcp "MCP_TCP_ADDR" args.tcp_addr a htcp
  obtain ⟨o2, h2⟩ := parseEnabled_ok parse args.enable_http "MCP_HTTP_ADDR" args.http_addr b hhttp
  unfold TransportState.from_args
  rw [h1, h2, hsse, parseEnabled_error parse _ _ _ hp]
  rfl

/-- First-failure lemma for the ws field of `from_args`. -/
theorem from_args_ws_error (parse : String → Except String SocketAddr)
    (args : CommandArguments) (a b c : SocketAddr) (e : String)
    (htcp : args.enable_tcp = false ∨ parse args.tcp_addr = .ok a)
    (hhttp : args.enable_http = false ∨ parse args.http_addr = .ok b)
    (hsse : args.enable_sse = false ∨ parse args.sse_addr = .ok c)
    (hws : args.enable_ws = true) (hp : parse args.ws_addr = .error e) :
    TransportState.from_args parse args
      = .error ("Invalid MCP_WS_ADDR: " ++ e) := by
  obtain ⟨o1, h1⟩ := parseEnabled_ok parse args.enable_tcp "MCP_TCP_ADDR" args.tcp_addr a htcp
  obtain ⟨o2, h2⟩ := parseEnabled_ok parse args.enable_http "MCP_HTTP_ADDR" args.http_addr b hhttp
  obtain ⟨o3, h3⟩ := parseEnabled_ok parse args.enable_sse "MCP_SSE_ADDR" args.sse_addr c hsse
  unfold TransportState.from_args
  rw [h1, h2, h3, hws, parseEnabled_error parse _ _ _ hp]
  rfl

/-- Changing the address string of a disabled transport never changes
the resolution result. -/
theorem from_args_disabled_irrelevant
    (parse : String → Except String SocketAddr) (args : CommandArguments)
    (s : String) :
    (args.enable_tcp = false →
      TransportState.from_args parse { args with tcp_addr := s }
        = TransportState.from_args parse args) ∧
    (args.enable_http = false →
      TransportState.from_args parse { args with http_addr := s }
        = TransportState.from_args parse args) ∧
    (args.enable_sse = false →
      TransportState.from_args parse { args with sse_addr := s }
        = TransportState.from_args parse args) ∧
    (args.enable_ws = false →
      TransportState.from_args parse { args with ws_addr := s }
        = TransportState.from_args parse args) ∧
    (args.enable_unix = false →
      TransportState.from_args parse { args with unix_path := s }
        = TransportState.from_args parse args) := by
  refine ⟨fun h => ?_, fun h => ?_, fun h => ?_, fun h => ?_, fun h => ?_⟩ <;>
    unfold TransportState.from_args <;>
    simp [parseEnabled, h]

/-! ## Claims -/

/-- C4: resolution into `TransportState` parses only the address fields
of enabled network transports, returns the first parse failure
encountered in the fixed order tcp, http, sse, ws (when several enabled
transports have unparsable addresses the reported error is the earliest
in that order), and a disabled transport's address string never causes
a failure. -/
theorem claim_c4_from_args_order (parse : String → Except String SocketAddr)
    (args : CommandArguments) :
    (∀ e, args.enable_tcp = true → parse args.tcp_addr = .error e →
      TransportState.from_args parse args
        = .error ("Invalid MCP_TCP_ADDR: " ++ e)) ∧
    (∀ a e, (args.enable_tcp = false ∨ parse args.tcp_addr = .ok a) →
      args.enable_http = true → parse args.http_addr = .error e →
      TransportState.from_args parse args
        = .error ("Invalid MCP_HTTP_ADDR: " ++ e)) ∧
    (∀ a b e, (args.enable_tcp = false ∨ parse args.tcp_addr = .ok a) →
      (args.enable_http = false ∨ parse args.http_addr = .ok b) →
      args.enable_sse = true → parse args.sse_addr = .error e →
      TransportState.from_args parse args
        = .error ("Invalid MCP_SSE_ADDR: " ++ e)) ∧
    (∀ a b c e, (args.enable_tcp = false ∨ parse args.tcp_addr = .ok a) →
      (args.enable_http = false ∨ parse args.http_addr = .ok b) →
      (args.enable_sse = false ∨ parse args.sse_addr = .ok c) →
      args.enable_ws = true → parse args.ws_addr = .error e →
      TransportState.from_args parse args
        = .error ("Invalid MCP_WS_ADDR: " ++ e)) ∧
    (∀ s,
      (args.enable_tcp = false →
        TransportState.from_args parse { args with tcp_addr := s }
          = TransportState.from_args parse args) ∧
      (args.enable_http = false →
        TransportState.from_args parse { args with http_addr := s }
          = TransportState.from_args parse args) ∧
      (args.enable_sse = false →
        TransportState.from_args parse { args with sse_addr := s }
          = TransportState.from_args parse args) ∧
      (args.enable_ws = false →
        TransportState.from_args parse { args with ws_addr := s }
          = TransportState.from_args parse args) ∧
      (args.enable_unix = false →
        TransportState.from_args parse { args with unix_path := s }
          = TransportState.from_args parse args)) := by
  refine ⟨?_, ?_, ?_, ?_, ?_⟩
  · exact fun e h1 h2 => from_args_tcp_error parse args e h1 h2
  · exact fun a e h1 h2 h3 => from_args_http_error parse args a e h1 h2 h3
  · exact fun a b e h1 h2 h3 h4 => from_args_sse_error parse args a b e h1 h2 h3 h4
  · exact fun a b c e h1 h2 h3 h4 h5 =>
      from_args_ws_error parse args a b c e h1 h2 h3 h4 h5
  · exact fun s => from_args_disabled_irrelevant parse args s

/-- Witness for C4 at a concrete configuration: TCP and HTTP both
enabled with addresses the parser rejects; the reported failure is the
tcp one. -/
theorem claim_c4_witness :
    TransportState.from_args (fun _ => Except.error "bad socket address")
      { enable_stdio := false, enable_tcp := true, enable_unix := false,
        enable_http := true, enable_sse := false, enable_ws := false,
        tcp_addr := "not-an-addr", http_addr := "also-bad", sse_addr := "x",
        ws_addr := "y", unix_path := "", runtime_info_file := "" }
      = .error ("Invalid MCP_TCP_ADDR: " ++ "bad socket address") :=
  (claim_c4_from_args_order (fun _ => Except.error "bad socket address")
    { enable_stdio := false, enable_tcp := true, enable_unix := false,
      enable_http := true, enable_sse := false, enable_ws := false,
      tcp_addr := "not-an-addr", http_addr := "also-bad", sse_addr := "x",
      ws_addr := "y", unix_path := "", runtime_info_file := "" }).1
    "bad socket address" rfl rfl

/-- C7: with TCP enabled and a `tcp_addr` that does not parse,
resolution fails and the error message names the offending field
(`tcp_addr`, spelled as its environment variable `MCP_TCP_ADDR`): the
message decomposes around the uppercased field name. -/
theorem claim_c7_tcp_error_names_field
    (parse : String → Except String SocketAddr) (args : CommandArguments)
    (e : String) (htcp : args.enable_tcp = true)
    (hp : parse args.tcp_addr = .error e) :
    TransportState.from_args parse args
      = .error ("Invalid MCP_TCP_ADDR: " ++ e) ∧
    ∃ pre post,
      ("Invalid MCP_TCP_ADDR: " ++ e).data
        = pre ++ "tcp_addr".data.map Char.toUpper ++ post := by
  refine ⟨from_args_tcp_error parse args e htcp hp,
    "Invalid MCP_".data, (": " ++ e).data, ?_⟩
  have hfix : "Invalid MCP_TCP_ADDR: ".data
      = "Invalid MCP_".data ++ "tcp_addr".data.map Char.toUpper
          ++ ": ".data := by decide
  calc ("Invalid MCP_TCP_ADDR: " ++ e).data
      = "Invalid MCP_TCP_ADDR: ".data ++ e.data := String.data_append _ _
    _ = ("Invalid MCP_".data ++ "tcp_addr".data.map Char.toUpper
          ++ ": ".data) ++ e.data := by rw [hfix]
    _ = "Invalid MCP_".data ++ "tcp_addr".data.map Char.toUpper
          ++ (": " ++ e).data := by
        rw [String.data_append]
        simp [List.append_assoc]

/-- Witness for C7: a parser rejecting every string, a configuration
enabling only TCP. -/
theorem claim_c7_witness :
    TransportState.from_args (fun _ => Except.error "invalid IP address syntax")
      { enable_stdio := true, enable_tcp := true, enable_unix := false,
        enable_http := false, enable_sse := false, enable_ws := false,
        tcp_addr := "localhost", http_addr := "", sse_addr := "",
        ws_addr := "", unix_path := "", runtime_info_file := "" }
      = .error ("Invalid MCP_TCP_ADDR: " ++ "invalid IP address syntax") ∧
    ∃ pre post,
      ("Invalid MCP_TCP_ADDR: " ++ "invalid IP address syntax").data
        = pre ++ "tcp_addr".data.map Char.toUpper ++ post :=
  claim_c7_tcp_error_names_field (fun _ => Except.error "invalid IP address syntax")
    { enable_stdio := true, enable_tcp := true, enable_unix := false,
      enable_http := false, enable_sse := false, enable_ws := false,
      tcp_addr := "localhost", http_addr := "", sse_addr := "",
      ws_addr := "", unix_path := "", runtime_info_file := "" }
    "invalid IP address syntax" rfl rfl

/-- C3: with all six transport enable flags false, startup fails with
the distinct no-transports error.  The result is the same for every
address parser (so no address string is parsed and no socket is
touched), the attempted runtime-info write is `none` (no file is
written), resolution itself succeeds with the empty transport set, and
the CLI validator rejects the same configuration with its own
no-transport error before consulting the parser. -/
theorem claim_c3_no_transports
    (parse : String → Except String SocketAddr) (trimIsEmpty : String → Bool)
    (args : CommandArguments) (pid : Nat)
    (atc ath aws : Option SocketAddr) (joinRes writeRes : Except String Unit)
    (h : args.enable_stdio = false ∧ args.enable_tcp = false ∧
         args.enable_unix = false ∧ args.enable_http = false ∧
         args.enable_sse = false ∧ args.enable_ws = false) :
    start_server parse args pid atc ath aws joinRes writeRes
      = (.error "No transports enabled; toggle MCP_ENABLE_* env vars or CLI flags",
         none) ∧
    TransportState.from_args parse args
      = .ok { stdio := false, tcp := none, unix_path := none,
              http := none, sse := none, ws := none } ∧
    CommandArguments.validate parse trimIsEmpty args
      = .error "Enable at least one transport (stdio, tcp, unix, http, or sse)" := by
  obtain ⟨h1, h2, h3, h4, h5, h6⟩ := h
  have hfa : TransportState.from_args parse args
      = .ok { stdio := false, tcp := none, unix_path := none,
              http := none, sse := none, ws := none } := by
    unfold TransportState.from_args
    simp [parseEnabled, h1, h2, h3, h4, h5, h6]
  refine ⟨?_, hfa, ?_⟩
  · unfold start_server
    rw [hfa]
    rfl
  · unfold CommandArguments.validate
    simp [h1, h2, h3, h4, h5, h6]

/-- Witness for C3: the all-disabled configuration with a parser that
would accept every address (showing the parser is never consulted). -/
theorem claim_c3_witness :
    start_server (fun _ => Except.ok ⟨"127.0.0.1", 80⟩)
      { enable_stdio := false, enable_tcp := false, enable_unix := false,
        enable_http := false, enable_sse := false, enable_ws := false,
        tcp_addr := "127.0.0.1:0", http_addr := "0.0.0.0:0",
        sse_addr := "0.0.0.0:0", ws_addr := "0.0.0.0:0",
        unix_path := "/tmp/mcp.sock", runtime_info_file := "/tmp/r.json" }
      77 none none none (.ok ()) (.ok ())
      = (.error "No transports enabled; toggle MCP_ENABLE_* env vars or CLI flags",
         none) :=
  (claim_c3_no_transports (fun _ => Except.ok ⟨"127.0.0.1", 80⟩) (fun _ => false)
    { enable_stdio := false, enable_tcp := false, enable_unix := false,
      enable_http := false, enable_sse := false, enable_ws := false,
      tcp_addr := "127.0.0.1:0", http_addr := "0.0.0.0:0",
      sse_addr := "0.0.0.0:0", ws_addr := "0.0.0.0:0",
      unix_path := "/tmp/mcp.sock", runtime_info_file := "/tmp/r.json" }
    77 none none none (.ok ()) (.ok ())
    ⟨rfl, rfl, rfl, rfl, rfl, rfl⟩).1

/-- Modelled from the spec: "Active-endpoint descriptor strings:
`stdio`, `tcp@<addr>`, `unix@<path>`, `streamable-http@<addr>` (or
`http+streamable-sse@<addr>`), `sse@<addr>`, `ws@<addr>`", one
descriptor per enabled transport in the fixed order stdio, tcp, unix,
http, sse, ws (the spec's alternative `http+streamable-sse` form is the
one the code emits). -/
def activeEndpointsSpec (t : TransportState) : List String :=
  [if t.stdio then some "stdio" else none,
   t.tcp.map (fun a => "tcp@" ++ a.render),
   t.unix_path.map (fun p => "unix@" ++ p),
   t.http.map (fun a => "http+streamable-sse@" ++ a.render),
   t.sse.map (fun a => "sse@" ++ a.render),
   t.ws.map (fun a => "ws@" ++ a.render)].reduceOption

/-- C8: `active_endpoints` returns exactly one descriptor per enabled
transport, in the fixed order stdio, tcp, unix, http, sse, ws, with the
forms listed by the spec (the http form being
`http+streamable-sse@<addr>`): it coincides with the spec-side
definition, and its length is the number of enabled transports. -/
theorem claim_c8_active_endpoints_shape (t : TransportState) :
    t.active_endpoints = activeEndpointsSpec t ∧
    t.active_endpoints.length
      = (if t.stdio then 1 else 0) + (if t.tcp.isSome then 1 else 0)
        + (if t.unix_path.isSome then 1 else 0)
        + (if t.http.isSome then 1 else 0)
        + (if t.sse.isSome then 1 else 0)
        + (if t.ws.isSome then 1 else 0) := by
  obtain ⟨st, tcp, up, http, sse, ws⟩ := t
  constructor <;>
    (cases st <;> rcases tcp with _ | a <;> rcases up with _ | p <;>
      rcases http with _ | b <;> rcases sse with _ | c <;>
      rcases ws with _ | d <;>
      simp [TransportState.active_endpoints, activeEndpointsSpec,
        List.reduceOption])

/-- The stdio flag of a successfully resolved `TransportState` is the
configuration's `enable_stdio`. -/
theorem from_args_ok_stdio (parse : String → Except String SocketAddr)
    (args : CommandArguments) (ts : TransportState)
    (h : TransportState.from_args parse args = .ok ts) :
    ts.stdio = args.enable_stdio := by
  unfold TransportState.from_args at h
  repeat' split at h
  all_goals cases h
  all_goals rfl

/-- With stdio enabled, `start_server`'s accumulated endpoint list
holds `stdio` exactly twice: once from `active_endpoints` and once from
the push at the stdio task spawn. -/
theorem count_stdio_start_server_endpoints (t : TransportState)
    (atc ath aws : Option SocketAddr) (h : t.stdio = true) :
    (start_server_endpoints t atc ath aws).count "stdio" = 2 := by
  obtain ⟨st, tcp, up, http, sse, ws⟩ := t
  simp only at h
  subst h
  have hact := count_stdio_active_endpoints ⟨true, tcp, up, http, sse, ws⟩
  simp only [if_true] at hact
  unfold start_server_endpoints
  simp only [endpoints_lock_push]
  rcases tcp with _ | a <;> rcases atc with _ | a' <;>
    rcases http with _ | b <;> rcases ath with _ | b' <;>
    rcases ws with _ | c <;> rcases aws with _ | c' <;>
    simp [List.count_append, List.count_cons, List.count_nil, hact]

/-- C9: whenever stdio is enabled and `start_server` reaches the
runtime-info write, the written endpoints list contains the string
`stdio` exactly twice — once from extending with `active_endpoints`
and once from the separate push when the stdio task is spawned. -/
theorem claim_c9_stdio_twice (parse : String → Except String SocketAddr)
    (args : CommandArguments) (pid : Nat)
    (atc ath aws : Option SocketAddr) (writeRes : Except String Unit)
    (info : RuntimeInfo) (hstdio : args.enable_stdio = true)
    (hw : (start_server parse args pid atc ath aws (.ok ()) writeRes).2
            = some info) :
    info.endpoints.count "stdio" = 2 := by
  unfold start_server at hw
  cases hfa : TransportState.from_args parse args with
  | error e => rw [hfa] at hw; cases hw
  | ok ts =>
    rw [hfa] at hw
    have hts : ts.stdio = true := by
      rw [from_args_ok_stdio parse args ts hfa, hstdio]
    have hen : ts.any_enabled = true := by
      simp [TransportState.any_enabled, hts]
    simp only [hen, Bool.not_true, Bool.false_eq_true, if_false] at hw
    have : info.endpoints = start_server_endpoints ts atc ath aws := by
      cases hw
      rfl
    rw [this]
    exact count_stdio_start_server_endpoints ts atc ath aws hts

/-- Witness for C9: stdio-only configuration; the runtime info whose
write is attempted is `{pid := 9, endpoints := ["stdio", "stdio"]}`. -/
theorem claim_c9_witness :
    (RuntimeInfo.mk 9 ["stdio", "stdio"]).endpoints.count "stdio" = 2 :=
  claim_c9_stdio_twice (fun _ => Except.error "unused")
    { enable_stdio := true, enable_tcp := false, enable_unix := false,
      enable_http := false, enable_sse := false, enable_ws := false,
      tcp_addr := "127.0.0.1:0", http_addr := "0.0.0.0:0",
      sse_addr := "0.0.0.0:0", ws_addr := "0.0.0.0:0",
      unix_path := "/tmp/mcp.sock", runtime_info_file := "/tmp/r.json" }
    9 none none none (.ok ()) (RuntimeInfo.mk 9 ["stdio", "stdio"]) rfl rfl

/-- C1: evaluation of the code at the failing input.  Configuration:
only TCP enabled, `tcp_addr = "127.0.0.1:0"`; the listener binds the
ephemeral port 49152.  The endpoint list reported through the written
`RuntimeInfo` is `["tcp@127.0.0.1:0"]` — the configured address with
the requested port `0` — because `endpoints.extend(active_endpoints())`
copies the configured addresses and `endpoints_lock_push`, the only
place the actual bound address reaches, discards its argument.  The
single descriptor differs from the actual-bound descriptor
`tcp@127.0.0.1:49152` the claim requires. -/
theorem claim_c1_configured_port_reported :
    start_server
      (fun s => if s = "127.0.0.1:0" then Except.ok ⟨"127.0.0.1", 0⟩
                else Except.error "invalid socket address")
      { enable_stdio := false, enable_tcp := true, enable_unix := false,
        enable_http := false, enable_sse := false, enable_ws := false,
        tcp_addr := "127.0.0.1:0", http_addr := "0.0.0.0:0",
        sse_addr := "0.0.0.0:0", ws_addr := "0.0.0.0:0",
        unix_path := "/tmp/mcp.sock", runtime_info_file := "/tmp/r.json" }
      4242 (some ⟨"127.0.0.1", 49152⟩) none none (.ok ()) (.ok ())
      = (.ok (), some ⟨4242, ["tcp@127.0.0.1:0"]⟩) ∧
    ("tcp@127.0.0.1:0" : String)
      ≠ "tcp@" ++ SocketAddr.render ⟨"127.0.0.1", 49152⟩ := by
  constructor
  · rfl
  · decide

/-- C2, counterexample: a run whose join completes in failure (a task
returned a TCP accept error) with TCP enabled and bound.  Contrary to
the claim, `start_server` propagates the error at the `res??` in the
join loop without attempting the runtime-info write: the attempted
write is `none`. -/
theorem claim_c2_counterexample :
    start_server (fun _ => Except.ok ⟨"127.0.0.1", 9000⟩)
      { enable_stdio := false, enable_tcp := true, enable_unix := false,
        enable_http := false, enable_sse := false, enable_ws := false,
        tcp_addr := "127.0.0.1:9000", http_addr := "0.0.0.0:0",
        sse_addr := "0.0.0.0:0", ws_addr := "0.0.0.0:0",
        unix_path := "/tmp/mcp.sock", runtime_info_file := "/tmp/r.json" }
      7 (some ⟨"127.0.0.1", 9000⟩) none none
      (.error "TCP accept error: connection reset") (.ok ())
      = (.error "TCP accept error: connection reset", none) := by
  rfl

/-- C2, amended: the runtime-info write is attempted only when the join
completes with every task succeeding; on a task failure `start_server`
returns that error without attempting the write.  When the write is
attempted, it carries the process id and the collected endpoints, and
its own failure is never fatal: the returned value is success for every
write outcome. -/
theorem claim_c2_write_on_success (parse : String → Except String SocketAddr)
    (args : CommandArguments) (pid : Nat)
    (atc ath aws : Option SocketAddr) (writeRes : Except String Unit)
    (ts : TransportState)
    (hts : TransportState.from_args parse args = .ok ts)
    (hen : ts.any_enabled = true) :
    (∀ e, start_server parse args pid atc ath aws (.error e) writeRes
        = (.error e, none)) ∧
    start_server parse args pid atc ath aws (.ok ()) writeRes
      = (.ok (), some ⟨pid, start_server_endpoints ts atc ath aws⟩) := by
  constructor
  · intro e
    unfold start_server
    rw [hts]
    simp [hen]
  · unfold start_server
    rw [hts]
    simp [hen]

/-- Witness for C2 (amended) at a concrete run: stdio-only
configuration, successful join, failing write; the function returns
success and the attempted write carries pid 3 and the collected
endpoints. -/
theorem claim_c2_witness :
    start_server (fun _ => Except.error "unused")
      { enable_stdio := true, enable_tcp := false, enable_unix := false,
        enable_http := false, enable_sse := false, enable_ws := false,
        tcp_addr := "127.0.0.1:0", http_addr := "0.0.0.0:0",
        sse_addr := "0.0.0.0:0", ws_addr := "0.0.0.0:0",
        unix_path := "/tmp/mcp.sock", runtime_info_file := "/tmp/r.json" }
      3 none none none (.ok ()) (.error "disk full")
      = (.ok (), some ⟨3, ["stdio", "stdio"]⟩) :=
  (claim_c2_write_on_success (fun _ => Except.error "unused")
    { enable_stdio := true, enable_tcp := false, enable_unix := false,
      enable_http := false, enable_sse := false, enable_ws := false,
      tcp_addr := "127.0.0.1:0", http_addr := "0.0.0.0:0",
      sse_addr := "0.0.0.0:0", ws_addr := "0.0.0.0:0",
      unix_path := "/tmp/mcp.sock", runtime_info_file := "/tmp/r.json" }
    3 none none none (.error "disk full")
    { stdio := true, tcp := none, unix_path := none,
      http := none, sse := none, ws := none } rfl rfl).2

/-- C5: the receive path treats only text frames as protocol data.  A
binary frame followed by one valid text-encoded envelope yields exactly
that one envelope; every non-text frame (binary, ping, pong, close,
raw) is skipped with polling continuing, producing neither an envelope
nor an error; and a text frame whose contents fail JSON decoding is
skipped with the stream continuing. -/
theorem claim_c5_ws_skips_nontext (payload : List Nat) (E : JsonRpcMessage) :
    wsReceiveAll [WsItem.ok (Message.binary payload),
                  WsItem.ok (Message.text E.encode)] = [E] ∧
    (∀ (m : Message) (rest : List WsItem), m.isText = false →
      wsReceiveAll (WsItem.ok m :: rest) = wsReceiveAll rest) ∧
    (∀ (j : Json) (rest : List WsItem), JsonRpcMessage.decode j = none →
      wsReceiveAll (WsItem.ok (Message.text j) :: rest)
        = wsReceiveAll rest) := by
  refine ⟨?_, ?_, ?_⟩
  · simp [wsReceiveAll, JsonRpcMessage.decode_encode]
  · intro m rest h
    cases m with
    | text j => simp [Message.isText] at h
    | binary p => rfl
    | ping p => rfl
    | pong p => rfl
    | close => rfl
    | frame => rfl
  · intro j rest h
    simp [wsReceiveAll, h]

/-- Witness for C5: a binary frame then an encoded notification yields
exactly that notification; a ping and a close yield nothing; an
undecodable text frame (the JSON document `null`) yields nothing. -/
theorem claim_c5_witness :
    wsReceiveAll [WsItem.ok (Message.binary [0]),
        WsItem.ok (Message.text (JsonRpcMessage.notification "ping" none).encode)]
      = [JsonRpcMessage.notification "ping" none] ∧
    wsReceiveAll [WsItem.ok (Message.ping []), WsItem.ok Message.close] = [] ∧
    wsReceiveAll [WsItem.ok (Message.text Json.null)] = [] := by
  refine ⟨(claim_c5_ws_skips_nontext [0]
      (JsonRpcMessage.notification "ping" none)).1, ?_, ?_⟩
  · have h := (claim_c5_ws_skips_nontext []
      (JsonRpcMessage.notification "ping" none)).2.1
    rw [h (Message.ping []) [WsItem.ok Message.close] rfl,
      h Message.close [] rfl]
    rfl
  · have h := (claim_c5_ws_skips_nontext []
      (JsonRpcMessage.notification "ping" none)).2.2
    rw [h Json.null [] rfl]
    rfl

/-- C6: serializing any envelope through the send path into a single
JSON text frame and feeding that frame into the receive path yields the
envelope back, structurally equal. -/
theorem claim_c6_ws_roundtrip (E : JsonRpcMessage) :
    wsReceiveAll [WsItem.ok (wsStartSend E)] = [E] := by
  simp [wsStartSend, wsReceiveAll, JsonRpcMessage.decode_encode]

/-- C10: the receive stream never yields an error item — its item type
has no error variant, and a frame-level read error anywhere in the
sequence is skipped with polling continuing, contributing nothing to
the yielded envelopes; the stream ends exactly when the underlying
frame sequence does. -/
theorem claim_c10_ws_read_errors_skipped (xs ys : List WsItem) (e : String) :
    wsReceiveAll (xs ++ WsItem.err e :: ys) = wsReceiveAll (xs ++ ys) := by
  induction xs with
  | nil => simp [wsReceiveAll]
  | cons hd tl ih =>
    cases hd with
    | ok m =>
      cases m with
      | text j =>
        simp only [List.cons_append, wsReceiveAll]
        cases hdec : JsonRpcMessage.decode j <;> simp [hdec, ih]
      | binary p => simpa [wsReceiveAll] using ih
      | ping p => simpa [wsReceiveAll] using ih
      | pong p => simpa [wsReceiveAll] using ih
      | close => simpa [wsReceiveAll] using ih
      | frame => simpa [wsReceiveAll] using ih
    | err s => simpa [wsReceiveAll] using ih

end Gateway
